import Mathlib

/-!
Verification of the open-webui-utilities Confluence tools
(src/confluence_search.py, src/confluence_page.py, src/confluence_api.py)
against their natural-language specification.

The Python sources are shallowly embedded: pure helpers become Lean
functions, the HTTP layer is an oracle `Api` mapping a URL and query
parameters to a response, and each tool entry point is a pure function
returning the ordered list of observable steps (event emissions and HTTP
requests) together with its string return value.  Library calls that are
not code of this repository (`markdownify`, `json.dumps`) are passed in as
function parameters.
-/

namespace Conf

/-! ## Events and steps (EventEmitter, identical in all three files) -/

/-- One event delivered to the caller-supplied `__event_emitter__` sink.
`status` carries the rendered description (glyph prefix included), the
`status` field and the `done` flag, mirroring `EventEmitter.emit_status`;
`citation` mirrors `EventEmitter.emit_source` with its document list,
metadata source url, html flag and source name. -/
inductive Event where
  | status (description : String) (statusField : String) (done : Bool)
  | message (content : String)
  | citation (document : List String) (source : String) (html : Bool) (name : String)
deriving DecidableEq, Repr

/-- Embedding of `EventEmitter.emit_status` (confluence_search.py lines
33-43, confluence_page.py lines 33-43): the description is prefixed with
`❌` when done and error, `✅` when done without error, `🔎` otherwise, and
the status field is `complete` exactly when `done`. -/
def statusEvent (description : String) (done : Bool) (error : Bool) : Event :=
  Event.status
    ((if done then (if error then "❌" else "✅") else "🔎") ++ " " ++ description)
    (if done then "complete" else "in_progress")
    done

/-- Embedding of `EventEmitter.emit_source`: document list `[content]`,
metadata source `url`, html flag (always `false` at the call sites), and
source name. -/
def citationEvent (name : String) (url : String) (content : String) : Event :=
  Event.citation [content] url false name

/-- One observable step of a tool invocation: an event emission or an HTTP
GET request (`requests.get`). -/
inductive Step where
  | emit (e : Event)
  | httpGet (url : String) (params : List (String × String))
deriving DecidableEq, Repr

/-- Events emitted during a run, in order, with HTTP requests dropped. -/
def emittedEvents (steps : List Step) : List Event :=
  steps.filterMap fun s =>
    match s with
    | Step.emit e => some e
    | Step.httpGet _ _ => none

/-- HTTP requests issued during a run, in order. -/
def httpCalls (steps : List Step) : List (String × List (String × String)) :=
  steps.filterMap fun s =>
    match s with
    | Step.emit _ => none
    | Step.httpGet u p => some (u, p)

/-- Decides whether a step is a status event with `done = true`. -/
def isDoneStatus (s : Step) : Bool :=
  match s with
  | Step.emit (Event.status _ _ true) => true
  | _ => false

/-! ## HTTP layer model -/

/-- Structured payload of a Confluence REST response, restricted to the
fields the tools read: a search response (`{"results": [{"id": ...}, ...]}`,
abstracted to its list of ids) or a page response (`id`, `title`,
`body.view.value` HTML and `_links.webui`). -/
inductive JsonDoc where
  | searchResults (ids : List String)
  | page (id : String) (title : String) (bodyHtml : String) (webui : String)
deriving DecidableEq, Repr

/-- Model of a `requests` response: the `ok` flag, the body `text`, and the
parsed `json()` payload. -/
structure HttpResp where
  ok : Bool
  text : String
  json : JsonDoc
deriving DecidableEq, Repr

/-- The remote Confluence server, as an oracle from request URL and query
parameters to the HTTP response. -/
def Api : Type := String → List (String × String) → HttpResp

/-! ## Credentials (Valves / UserValves and their resolution) -/

/-- Per-user override configuration (`Tools.UserValves`, identical in
confluence_search.py lines 175-188 and confluence_page.py lines 155-168). -/
structure UserValves where
  api_key_auth : Bool
  username : String
  api_key : String
deriving DecidableEq, Repr

/-- Default configuration of the search tool (`Tools.Valves`,
confluence_search.py lines 158-173). -/
structure SearchValves where
  base_url : String
  username : String
  api_key : String
  result_limit : Int
deriving DecidableEq, Repr

/-- Default configuration of the page tool (`Tools.Valves`,
confluence_page.py lines 131-153). -/
structure PageValves where
  base_url : String
  username : String
  api_key : String
  ssl_verify : Bool
  strip_images : String
deriving DecidableEq, Repr

/-- Python string truthiness disjunction `a or b`: the left operand when it
is non-empty, the right one otherwise. -/
def pyOr (a b : String) : String :=
  if a = "" then b else a

/-- Credential resolution shared verbatim by the two tool entry points
(confluence_search.py lines 209-218, confluence_page.py lines 185-194):
with user valves present, the auth mode flag comes from the override and
username / api key fall back to the defaults when the override field is
empty; without user valves the defaults are used with basic (api-key) auth.
Returns `(api_key_auth, api_username, api_key)`. -/
def resolveCreds (defUsername defApiKey : String) (user : Option UserValves) :
    Bool × String × String :=
  match user with
  | some uv => (uv.api_key_auth, pyOr uv.username defUsername, pyOr uv.api_key defApiKey)
  | none => (true, defUsername, defApiKey)

/-- The credential validation guard of both entry points
(confluence_search.py line 220, confluence_page.py line 196):
`(api_key_auth and not api_username) or not api_key`. -/
def credCheckFails (defUsername defApiKey : String) (user : Option UserValves) : Bool :=
  let r := resolveCreds defUsername defApiKey user
  (r.1 && r.2.1 = "") || r.2.2 = ""

/-! ## Base64 and the auth headers -/

/-- The standard base64 alphabet used by `base64.b64encode`. -/
def b64Alphabet : List Char :=
  "ABCDEFGHIJKLMNOPQRSTUVWXYZabcdefghijklmnopqrstuvwxyz0123456789+/".toList

/-- Character for a 6-bit group. -/
def b64Char (n : Nat) : Char := b64Alphabet.getD n 'A'

/-- Position of a character in the base64 alphabet (0 when absent), used by
the specification-side decoder. -/
def b64Pos (c : Char) : Nat :=
  go b64Alphabet
where
  go : List Char → Nat
    | [] => 0
    | x :: xs => if x = c then 0 else 1 + go xs

/-- Base64 encoding of a byte sequence, three bytes to four characters with
`=` padding, as performed by `base64.b64encode`. -/
def b64EncodeChunks : List Nat → List Char
  | [] => []
  | [b1] => [b64Char (b1 / 4), b64Char (b1 % 4 * 16), '=', '=']
  | [b1, b2] => [b64Char (b1 / 4), b64Char (b1 % 4 * 16 + b2 / 16), b64Char (b2 % 16 * 4), '=']
  | b1 :: b2 :: b3 :: rest =>
      b64Char (b1 / 4) :: b64Char (b1 % 4 * 16 + b2 / 16) ::
      b64Char (b2 % 16 * 4 + b3 / 64) :: b64Char (b3 % 64) :: b64EncodeChunks rest

/-- Specification-side base64 decoder: four characters back to three bytes,
honouring `=` padding. -/
def b64DecodeChunks : List Char → List Nat
  | c1 :: c2 :: c3 :: c4 :: rest =>
      if c3 = '=' then [b64Pos c1 * 4 + b64Pos c2 / 16]
      else if c4 = '=' then
        [b64Pos c1 * 4 + b64Pos c2 / 16, b64Pos c2 % 16 * 16 + b64Pos c3 / 4]
      else
        (b64Pos c1 * 4 + b64Pos c2 / 16) :: (b64Pos c2 % 16 * 16 + b64Pos c3 / 4) ::
        (b64Pos c3 % 4 * 64 + b64Pos c4) :: b64DecodeChunks rest
  | _ => []

/-- UTF-8 bytes of a string, mirroring Python's `str.encode("utf-8")`. -/
def strBytes (s : String) : List Nat :=
  s.toUTF8.toList.map (fun b => b.toNat)

/-- Embedding of `Confluence.authenticate_api_key` (confluence_search.py
lines 134-139, confluence_page.py lines 109-114, confluence_api.py lines
91-94): base64-encode the UTF-8 bytes of `"{username}:{api_key}"` and
prefix with `Basic `. -/
def authenticate_api_key (username api_key : String) : String :=
  "Basic " ++ (b64EncodeChunks (strBytes (username ++ ":" ++ api_key))).asString

/-- Embedding of `Confluence.authenticate_personal_access_token`
(confluence_search.py lines 141-142, confluence_page.py lines 116-117). -/
def authenticate_personal_access_token (access_token : String) : String :=
  "Bearer " ++ access_token

/-- Embedding of `Confluence.authenticate` of the search and page variants:
dispatch on the auth mode flag. -/
def authenticate (username api_key : String) (api_key_auth : Bool) : String :=
  if api_key_auth then authenticate_api_key username api_key
  else authenticate_personal_access_token api_key

/-! ## Image stripping (confluence_page.py `strip_images`)

The two regular expressions `!\[[^\]]*\]\([^)]+\)` and
`!\[[^\]]*\]\(data:[^)]+\)` are deterministic (their character classes
exclude the closing delimiter, so the greedy scan never backtracks), so
`re.sub` is embedded as a left-to-right scan with a concrete matcher. -/

/-- Splits a character list at the first occurrence of `stop`, returning
the part before it and the part after it, or `none` when `stop` is absent. -/
def breakAt (stop : Char) : List Char → Option (List Char × List Char)
  | [] => none
  | c :: cs =>
      if c = stop then some ([], cs)
      else
        match breakAt stop cs with
        | none => none
        | some (a, b) => some (c :: a, b)

/-- Tests whether a url character list matches `data:[^)]+`: the literal
prefix `data:` followed by at least one further character. -/
def isDataUrl (url : List Char) : Bool :=
  match url with
  | c1 :: c2 :: c3 :: c4 :: c5 :: rest =>
      c1 = 'd' && c2 = 'a' && c3 = 't' && c4 = 'a' && c5 = ':' && !rest.isEmpty
  | _ => false

/-- Attempts to match the image regular expression at the head of `xs`:
literal `![`, then any characters other than `]`, then `](`, then a
non-empty url without `)`, then `)`.  When `stripAll` is false the url must
additionally match `data:[^)]+`.  Returns the matched prefix and the
remainder. -/
def tryMatchImage (stripAll : Bool) (xs : List Char) : Option (List Char × List Char) :=
  match xs with
  | c1 :: c2 :: rest =>
      if c1 = '!' && c2 = '[' then
        match breakAt ']' rest with
        | none => none
        | some (alt, afterAlt) =>
          match afterAlt with
          | c3 :: urlRest =>
              if c3 = '(' then
                match breakAt ')' urlRest with
                | none => none
                | some (url, rest2) =>
                    if url = [] then none
                    else if stripAll || isDataUrl url then
                      some ('!' :: '[' :: alt ++ ']' :: '(' :: url ++ [')'], rest2)
                    else none
              else none
          | [] => none
      else none
  | _ => none

/-- Characterization of a successful `breakAt`: the input splits around the
first occurrence of `stop`, which does not occur in the prefix. -/
theorem breakAt_eq_some {stop : Char} {xs a b : List Char}
    (h : breakAt stop xs = some (a, b)) :
    xs = a ++ stop :: b ∧ stop ∉ a := by
  induction xs generalizing a with
  | nil => simp [breakAt] at h
  | cons x tl ih =>
    rw [breakAt] at h
    by_cases hx : x = stop
    · rw [if_pos hx] at h
      simp only [Option.some.injEq, Prod.mk.injEq] at h
      obtain ⟨ha, hb⟩ := h
      subst ha; subst hb
      subst hx
      exact ⟨rfl, by simp⟩
    · rw [if_neg hx] at h
      cases hb2 : breakAt stop tl with
      | none => rw [hb2] at h; simp at h
      | some q =>
        obtain ⟨a2, b2⟩ := q
        rw [hb2] at h
        simp only [Option.some.injEq, Prod.mk.injEq] at h
        obtain ⟨ha, hb'⟩ := h
        obtain ⟨h1, h2⟩ := ih (a := a2) (by rw [hb2, hb'])
        subst ha
        refine ⟨by simp [h1, hb'], ?_⟩
        simp only [List.mem_cons, not_or]
        exact ⟨fun hh => hx hh.symm, h2⟩

/-- Converse: `breakAt` finds the displayed first occurrence. -/
theorem breakAt_append {stop : Char} {a : List Char} (b : List Char)
    (h : stop ∉ a) : breakAt stop (a ++ stop :: b) = some (a, b) := by
  induction a with
  | nil => simp [breakAt]
  | cons x tl ih =>
    simp only [List.mem_cons, not_or] at h
    rw [List.cons_append, breakAt]
    have hx : ¬ x = stop := fun hh => h.1 (hh ▸ rfl)
    rw [if_neg hx, ih h.2]

/-- A character list that is exactly one markdown image reference as
matched by `!\[[^\]]*\]\([^)]+\)`. -/
def IsImgRef (m : List Char) : Prop :=
  ∃ alt url, m = '!' :: '[' :: alt ++ ']' :: '(' :: url ++ [')'] ∧
    ']' ∉ alt ∧ ')' ∉ url ∧ url ≠ []

/-- A character list that is exactly one embedded-image reference as
matched by `!\[[^\]]*\]\(data:[^)]+\)`. -/
def IsDataImgRef (m : List Char) : Prop :=
  ∃ alt url, m = '!' :: '[' :: alt ++ ']' :: '(' :: url ++ [')'] ∧
    ']' ∉ alt ∧ ')' ∉ url ∧ isDataUrl url = true

/-- A url matching `data:[^)]+` is non-empty. -/
theorem isDataUrl_ne_nil {url : List Char} (h : isDataUrl url = true) : url ≠ [] := by
  intro hnil
  subst hnil
  simp [isDataUrl] at h

/-- An embedded-image reference is in particular an image reference. -/
theorem IsDataImgRef.toImgRef {m : List Char} (h : IsDataImgRef m) : IsImgRef m := by
  obtain ⟨alt, url, hm, ha, hu, hd⟩ := h
  exact ⟨alt, url, hm, ha, hu, isDataUrl_ne_nil hd⟩

/-- Soundness of the matcher: a successful match splits the input and the
matched prefix is an image reference (an embedded one when `stripAll` is
false). -/
theorem tryMatchImage_some {stripAll : Bool} {xs m rest : List Char}
    (h : tryMatchImage stripAll xs = some (m, rest)) :
    xs = m ++ rest ∧ m ≠ [] ∧ IsImgRef m ∧ (stripAll = false → IsDataImgRef m) := by
  unfold tryMatchImage at h
  split at h
  case h_2 => simp at h
  case h_1 c1 c2 tl =>
    split at h
    case isFalse => simp at h
    case isTrue hc =>
      obtain ⟨hc1, hc2⟩ : c1 = '!' ∧ c2 = '[' := by
        constructor <;> [exact of_decide_eq_true (Bool.and_elim_left hc);
          exact of_decide_eq_true (Bool.and_elim_right hc)]
      split at h
      case h_1 => simp at h
      case h_2 alt afterAlt hb =>
        obtain ⟨htl, halt⟩ := breakAt_eq_some hb
        split at h
        case h_2 => simp at h
        case h_1 c3 urlRest =>
          split at h
          case isFalse => simp at h
          case isTrue hc3 =>
            split at h
            case h_1 => simp at h
            case h_2 url rest2 hb2 =>
              obtain ⟨hurl, hnotp⟩ := breakAt_eq_some hb2
              split at h
              case isTrue => simp at h
              case isFalse hempty =>
                split at h
                case isFalse => simp at h
                case isTrue hmode =>
                  simp only [Option.some.injEq, Prod.mk.injEq] at h
                  obtain ⟨hm, hrest⟩ := h
                  subst hm; subst hrest
                  subst hc1; subst hc2; subst hc3
                  refine ⟨?_, by simp, ⟨alt, url, rfl, halt, hnotp, hempty⟩, ?_⟩
                  · simp [htl, hurl]
                  · intro hfalse
                    subst hfalse
                    simp only [Bool.false_or] at hmode
                    exact ⟨alt, url, rfl, halt, hnotp, hmode⟩

/-- Completeness of the matcher in all-images mode: an image reference at
the head of the input is matched exactly. -/
theorem tryMatchImage_all_complete {m : List Char} (rest : List Char)
    (h : IsImgRef m) : tryMatchImage true (m ++ rest) = some (m, rest) := by
  obtain ⟨alt, url, hm, halt, hurl, hne⟩ := h
  subst hm
  have h1 : breakAt ']' (alt ++ ']' :: ('(' :: (url ++ ')' :: rest))) =
      some (alt, '(' :: (url ++ ')' :: rest)) := breakAt_append _ halt
  have h2 : breakAt ')' (url ++ ')' :: rest) = some (url, rest) :=
    breakAt_append _ hurl
  unfold tryMatchImage
  simp only [List.cons_append, List.nil_append, List.append_assoc]
  rw [if_pos (by simp)]
  rw [h1]
  dsimp only
  rw [if_pos rfl, h2]
  dsimp only
  rw [if_neg hne, if_pos (by simp)]

/-- Completeness of the matcher in embedded-only mode. -/
theorem tryMatchImage_data_complete {m : List Char} (rest : List Char)
    (h : IsDataImgRef m) : tryMatchImage false (m ++ rest) = some (m, rest) := by
  obtain ⟨alt, url, hm, halt, hurl, hdata⟩ := h
  subst hm
  have h1 : breakAt ']' (alt ++ ']' :: ('(' :: (url ++ ')' :: rest))) =
      some (alt, '(' :: (url ++ ')' :: rest)) := breakAt_append _ halt
  have h2 : breakAt ')' (url ++ ')' :: rest) = some (url, rest) :=
    breakAt_append _ hurl
  unfold tryMatchImage
  simp only [List.cons_append, List.nil_append, List.append_assoc]
  rw [if_pos (by simp)]
  rw [h1]
  dsimp only
  rw [if_pos rfl, h2]
  dsimp only
  rw [if_neg (isDataUrl_ne_nil hdata), if_pos (by simp [hdata])]

/-- A match in embedded-only mode is also a match (of the same extent) in
all-images mode. -/
theorem tryMatchImage_false_to_true {xs : List Char} {pr : List Char × List Char}
    (h : tryMatchImage false xs = some pr) : tryMatchImage true xs = some pr := by
  obtain ⟨m, rest⟩ := pr
  obtain ⟨hxs, _, himg, _⟩ := tryMatchImage_some h
  subst hxs
  exact tryMatchImage_all_complete rest himg

/-- Embedding of `re.sub(pattern, "", text)` for the image patterns: scan
left to right, delete each leftmost non-overlapping match, keep every other
character (confluence_page.py lines 65-68). -/
def subImage (stripAll : Bool) : List Char → List Char
  | [] => []
  | c :: cs =>
      match h : tryMatchImage stripAll (c :: cs) with
      | some (m, rest) => subImage stripAll rest
      | none => c :: subImage stripAll cs
termination_by xs => xs.length
decreasing_by
  · obtain ⟨hsplit, hne, -, -⟩ := tryMatchImage_some h
    rw [hsplit, List.length_append]
    have hp := List.length_pos.mpr hne
    omega
  · simp

/-- Specification of a single `re.sub(p, "", text)` pass with match
predicate `P`: the output is the input with a set of non-overlapping
`P`-blocks deleted, and no `P`-block starts at any kept position. -/
inductive StripRel (P : List Char → Prop) : List Char → List Char → Prop
  | nil : StripRel P [] []
  | keep {c : Char} {cs out : List Char}
      (hno : ¬ ∃ m rest, c :: cs = m ++ rest ∧ P m)
      (htl : StripRel P cs out) : StripRel P (c :: cs) (c :: out)
  | drop {m rest out : List Char} (hm : P m) (hne : m ≠ [])
      (htl : StripRel P rest out) : StripRel P (m ++ rest) out

/-- The all-images pass satisfies the strip specification for `IsImgRef`. -/
theorem subImage_all_stripRel (xs : List Char) :
    StripRel IsImgRef xs (subImage true xs) := by
  induction xs using subImage.induct true with
  | case1 => rw [subImage]; exact StripRel.nil
  | case2 c cs m rest h ih =>
      obtain ⟨hsplit, hne, himg, -⟩ := tryMatchImage_some h
      rw [subImage, h, hsplit]
      exact StripRel.drop himg hne ih
  | case3 c cs h ih =>
      rw [subImage, h]
      refine StripRel.keep ?_ ih
      rintro ⟨m, rest, hsplit, himg⟩
      rw [hsplit, tryMatchImage_all_complete rest himg] at h
      exact Option.noConfusion h

/-- The embedded-only pass satisfies the strip specification for
`IsDataImgRef`. -/
theorem subImage_data_stripRel (xs : List Char) :
    StripRel IsDataImgRef xs (subImage false xs) := by
  induction xs using subImage.induct false with
  | case1 => rw [subImage]; exact StripRel.nil
  | case2 c cs m rest h ih =>
      obtain ⟨hsplit, hne, -, hdata⟩ := tryMatchImage_some h
      rw [subImage, h, hsplit]
      exact StripRel.drop (hdata rfl) hne ih
  | case3 c cs h ih =>
      rw [subImage, h]
      refine StripRel.keep ?_ ih
      rintro ⟨m, rest, hsplit, himg⟩
      rw [hsplit, tryMatchImage_data_complete rest himg] at h
      exact Option.noConfusion h

/-- Left-to-right scan detecting whether any image reference (all-images
pattern) matches anywhere in the text. -/
def containsImg : List Char → Bool
  | [] => false
  | c :: cs => (tryMatchImage true (c :: cs)).isSome || containsImg cs

/-- Without any image reference in the text, both substitution passes leave
the text unchanged. -/
theorem subImage_of_not_containsImg (stripAll : Bool) (xs : List Char)
    (h : containsImg xs = false) : subImage stripAll xs = xs := by
  induction xs using subImage.induct stripAll with
  | case1 => rw [subImage]
  | case2 c cs m rest hm ih =>
      exfalso
      rw [containsImg, Bool.or_eq_false_iff] at h
      have htrue : tryMatchImage true (c :: cs) = some (m, rest) := by
        cases stripAll with
        | true => exact hm
        | false => exact tryMatchImage_false_to_true hm
      rw [htrue] at h
      simp at h
  | case3 c cs hm ih =>
      rw [containsImg, Bool.or_eq_false_iff] at h
      rw [subImage, hm, ih h.2]

/-- Bound used for the termination of the newline-collapsing scan. -/
theorem dropWhileNl_length_le (cs : List Char) :
    (cs.dropWhile (fun d => d = '\n')).length ≤ cs.length :=
  (List.dropWhile_sublist _).length_le

/-- Embedding of `re.sub(r"\n{3,}", "\n\n", text)` (confluence_page.py line
70): each maximal run of at least three newline characters is replaced by
exactly two newlines. -/
def collapseNewlines : List Char → List Char
  | [] => []
  | c :: cs =>
      if c = '\n' then
        if (cs.takeWhile (fun d => d = '\n')).length + 1 ≥ 3 then
          '\n' :: '\n' :: collapseNewlines (cs.dropWhile (fun d => d = '\n'))
        else
          c :: (cs.takeWhile (fun d => d = '\n') ++
            collapseNewlines (cs.dropWhile (fun d => d = '\n')))
      else c :: collapseNewlines cs
termination_by xs => xs.length
decreasing_by
  all_goals simp only [List.length_cons]
  all_goals first
    | exact Nat.lt_succ_of_le (dropWhileNl_length_le _)
    | omega

/-- Collapsing never changes the first character. -/
theorem collapseNewlines_head? (xs : List Char) :
    (collapseNewlines xs).head? = xs.head? := by
  match xs with
  | [] => rw [collapseNewlines]
  | c :: cs =>
    rw [collapseNewlines]
    by_cases hc : c = '\n'
    · rw [if_pos hc]
      by_cases hge : (cs.takeWhile (fun d => d = '\n')).length + 1 ≥ 3
      · rw [if_pos hge]; simp [hc]
      · rw [if_neg hge]; simp
    · rw [if_neg hc]; simp

/-- Detects three consecutive newline characters anywhere in the text. -/
def hasNNN : List Char → Bool
  | c1 :: c2 :: c3 :: rest =>
      (c1 = '\n' && c2 = '\n' && c3 = '\n') || hasNNN (c2 :: c3 :: rest)
  | _ => false

/-- Prepending a non-newline character cannot create a triple newline. -/
theorem hasNNN_cons_of_ne {c : Char} (t : List Char) (hc : c ≠ '\n') :
    hasNNN (c :: t) = hasNNN t := by
  match t with
  | [] => rfl
  | [d] => rfl
  | d :: e :: t' =>
      rw [hasNNN]
      simp [hc]

/-- Prepending one newline to a text that does not begin with a newline
cannot create a triple newline. -/
theorem hasNNN_nl (t : List Char) (h : ∀ x, t.head? = some x → x ≠ '\n') :
    hasNNN ('\n' :: t) = hasNNN t := by
  match t with
  | [] => rfl
  | [d] => rfl
  | d :: e :: t' =>
      have hd : d ≠ '\n' := h d rfl
      rw [hasNNN]
      simp [hd]

/-- Prepending two newlines to a text that does not begin with a newline
cannot create a triple newline. -/
theorem hasNNN_nl_nl (t : List Char) (h : ∀ x, t.head? = some x → x ≠ '\n') :
    hasNNN ('\n' :: '\n' :: t) = hasNNN t := by
  match t with
  | [] => rfl
  | d :: t' =>
      have hd : d ≠ '\n' := h d rfl
      rw [hasNNN, hasNNN_nl (d :: t') h]
      simp [hd]

/-- Helper: the collapsed tail after a newline run never begins with a
newline. -/
theorem collapse_dropWhile_head (cs : List Char) :
    ∀ x, (collapseNewlines (cs.dropWhile (fun d => d = '\n'))).head? = some x →
      x ≠ '\n' := by
  intro x hx
  rw [collapseNewlines_head?] at hx
  have hw := List.head?_dropWhile_not (fun d => d = '\n') cs
  rw [hx] at hw
  simpa using hw

/-- After collapsing, no three consecutive newlines remain anywhere. -/
theorem hasNNN_collapseNewlines (xs : List Char) :
    hasNNN (collapseNewlines xs) = false := by
  induction xs using collapseNewlines.induct with
  | case1 => rw [collapseNewlines]; rfl
  | case2 cs hge ih =>
      rw [collapseNewlines, if_pos rfl, if_pos hge]
      rw [hasNNN_nl_nl _ (collapse_dropWhile_head cs)]
      exact ih
  | case3 cs hlt ih =>
      rw [collapseNewlines, if_pos rfl, if_neg hlt]
      match hn : cs.takeWhile (fun d => d = '\n') with
      | [] =>
          simp only [List.nil_append]
          rw [hasNNN_nl _ (collapse_dropWhile_head cs)]
          exact ih
      | [x] =>
          have hx : x = '\n' := by
            have hmem : x ∈ cs.takeWhile (fun d => d = '\n') := by
              rw [hn]; exact List.mem_singleton.mpr rfl
            simpa using List.mem_takeWhile_imp hmem
          subst hx
          simp only [List.singleton_append]
          rw [hasNNN_nl_nl _ (collapse_dropWhile_head cs)]
          exact ih
      | x :: y :: t =>
          exfalso
          rw [hn] at hlt
          simp only [List.length_cons] at hlt
          omega
  | case4 c cs hc ih =>
      rw [collapseNewlines, if_neg hc]
      rw [hasNNN_cons_of_ne _ hc]
      exact ih

/-- Embedding of `strip_images` (confluence_page.py lines 61-71): remove
all markdown images (or only embedded `data:` ones), then collapse runs of
three or more newlines to two. -/
def strip_images (text : String) (strip_all : Bool) : String :=
  (collapseNewlines (subImage strip_all text.toList)).asString

/-- Post-processing of the page body in `Confluence.get_page`
(confluence_page.py lines 96-100): dispatch on the configured strip mode;
any mode other than `all` and `base64` (in particular `none`) leaves the
body untouched. -/
def applyStripMode (mode : String) (body : String) : String :=
  if mode = "all" then strip_images body true
  else if mode = "base64" then strip_images body false
  else body

/-! ## CQL construction (Query Builder) -/

/-- Whitespace characters recognised by Python's `str.split()` (ASCII
range). -/
def pyWS (c : Char) : Bool :=
  c = ' ' || c = '\t' || c = '\n' || c = '\r' || c = '\x0b' || c = '\x0c'

/-- Accumulating scanner behind `pySplit`. -/
def pySplitGo (cur : List Char) : List Char → List (List Char)
  | [] => if cur = [] then [] else [cur.reverse]
  | c :: cs =>
      if pyWS c then
        if cur = [] then pySplitGo [] cs
        else cur.reverse :: pySplitGo [] cs
      else pySplitGo (c :: cur) cs

/-- Embedding of Python's `str.split()` with no argument: split on runs of
whitespace, discarding empty pieces. -/
def pySplit (s : String) : List String :=
  (pySplitGo [] s.toList).map List.asString

/-- CQL built by `Confluence.search_by_title` (confluence_search.py lines
76-84): one `title ~ "<term>"` clause per whitespace-separated term joined
by `OR`, falling back to the raw query as single term, wrapped in
parentheses with `AND type="page"` appended. -/
def search_by_title_cql (query : String) : String :=
  let terms := pySplit query
  let cql_terms :=
    if terms = [] then "title ~ \"" ++ query ++ "\""
    else String.intercalate " OR " (terms.map (fun term => "title ~ \"" ++ term ++ "\""))
  "(" ++ cql_terms ++ ") AND type=\"page\""

/-- CQL built by `Confluence.search_by_content` (confluence_search.py lines
91-99). -/
def search_by_content_cql (query : String) : String :=
  let terms := pySplit query
  let cql_terms :=
    if terms = [] then "text ~ \"" ++ query ++ "\""
    else String.intercalate " OR " (terms.map (fun term => "text ~ \"" ++ term ++ "\""))
  "(" ++ cql_terms ++ ") AND type=\"page\""

/-- CQL built by `Confluence.search_by_title_and_content`
(confluence_search.py lines 106-116). -/
def search_by_title_and_content_cql (query : String) : String :=
  let terms := pySplit query
  let cql_terms :=
    if terms = [] then "title ~ \"" ++ query ++ "\" OR text ~ \"" ++ query ++ "\""
    else String.intercalate " OR "
      (terms.map (fun term => "title ~ \"" ++ term ++ "\" OR text ~ \"" ++ term ++ "\""))
  "(" ++ cql_terms ++ ") AND type=\"page\""

/-- Clause units described by the specification: the whitespace-separated
terms of the query, or the raw query as a single fallback term when there
are none. -/
def cqlUnits (query : String) : List String :=
  if pySplit query = [] then [query] else pySplit query

/-- CQL shape described by the specification: one clause per unit built
from a template, joined by ` OR `, wrapped in one parenthesis pair, with
`AND type="page"` appended once. -/
def cqlSpec (tmpl : String → String) (query : String) : String :=
  "(" ++ String.intercalate " OR " ((cqlUnits query).map tmpl) ++ ") AND type=\"page\""

/-- Title-mode clause template. -/
def tmplTitle (term : String) : String := "title ~ \"" ++ term ++ "\""

/-- Content-mode clause template. -/
def tmplContent (term : String) : String := "text ~ \"" ++ term ++ "\""

/-- Combined-mode clause template. -/
def tmplBoth (term : String) : String :=
  "title ~ \"" ++ term ++ "\" OR text ~ \"" ++ term ++ "\""

/-- Model of Python's `str.lower()` used on the search type, mapping each
character to lower case. -/
def strLower (s : String) : String :=
  (s.toList.map Char.toLower).asString

/-! ## Confluence clients -/

/-- Embedding of `Confluence.get` of the search tool (confluence_search.py
lines 69-74): build the URL, issue exactly one GET, raise an error carrying
the response body text when the status is not ok, return the parsed JSON
payload otherwise.  The step list records the single request. -/
def searchConfluenceGet (api : Api) (base_url endpoint : String)
    (params : List (String × String)) : List Step × Except String JsonDoc :=
  let url := base_url ++ "/rest/api/" ++ endpoint
  let response := api url params
  ([Step.httpGet url params],
    if response.ok then Except.ok response.json
    else Except.error ("Failed to get data from Confluence: " ++ response.text))

/-- Embedding of `Confluence.get` of the page tool (confluence_page.py
lines 83-88).  Identical to the search variant except that the request also
carries the `ssl_verify` flag, which does not change the observable
url/params/response mapping of the oracle. -/
def pageConfluenceGet (api : Api) (base_url endpoint : String)
    (params : List (String × String)) (ssl_verify : Bool) :
    List Step × Except String JsonDoc :=
  let url := base_url ++ "/rest/api/" ++ endpoint
  let response := api url params
  ([Step.httpGet url params],
    if response.ok then Except.ok response.json
    else Except.error ("Failed to get data from Confluence: " ++ response.text))

/-- Embedding of `Confluence.get` of the original combined tool
(confluence_api.py lines 62-65): the response status is never inspected;
the parsed payload is returned unconditionally. -/
def apiConfluenceGet (api : Api) (base_url endpoint : String)
    (params : List (String × String)) : List Step × Except String JsonDoc :=
  let url := base_url ++ "/rest/api/" ++ endpoint
  ([Step.httpGet url params], Except.ok (api url params).json)

/-- Query parameters sent by the page fetch (both tools). -/
def pageParams : List (String × String) :=
  [("expand", "body.view"), ("include-version", "false")]

/-- URL of the search endpoint for a base url, in the exact shape
`Confluence.get` builds it. -/
def searchUrl (base_url : String) : String :=
  base_url ++ "/rest/api/" ++ "content/search"

/-- URL of the page endpoint for a base url and page id, in the exact shape
`Confluence.get` builds it. -/
def pageUrl (base_url page_id : String) : String :=
  base_url ++ "/rest/api/" ++ ("content/" ++ page_id)

/-- Extraction of `rawResponse["results"]` ids: a `KeyError` (modelled as
the string Python renders for it) when the payload has no `results` key. -/
def extractIds (doc : JsonDoc) : Except String (List String) :=
  match doc with
  | JsonDoc.searchResults ids => Except.ok ids
  | JsonDoc.page _ _ _ _ => Except.error "'results'"

/-- Embedding of `Confluence.search_by_title` (confluence_search.py lines
76-89): build the CQL, issue the GET, collect the result ids. -/
def search_by_title (api : Api) (base_url query : String) (limit : Int) :
    List Step × Except String (List String) :=
  let params := [("cql", search_by_title_cql query), ("limit", toString limit)]
  let r := searchConfluenceGet api base_url "content/search" params
  (r.1, r.2.bind extractIds)

/-- Embedding of `Confluence.search_by_content` (confluence_search.py lines
91-104). -/
def search_by_content (api : Api) (base_url query : String) (limit : Int) :
    List Step × Except String (List String) :=
  let params := [("cql", search_by_content_cql query), ("limit", toString limit)]
  let r := searchConfluenceGet api base_url "content/search" params
  (r.1, r.2.bind extractIds)

/-- Embedding of `Confluence.search_by_title_and_content`
(confluence_search.py lines 106-121). -/
def search_by_title_and_content (api : Api) (base_url query : String) (limit : Int) :
    List Step × Except String (List String) :=
  let params := [("cql", search_by_title_and_content_cql query), ("limit", toString limit)]
  let r := searchConfluenceGet api base_url "content/search" params
  (r.1, r.2.bind extractIds)

/-- Normalized page record `{id, title, body, link}` produced by
`Confluence.get_page`. -/
structure PageRecord where
  id : String
  title : String
  body : String
  link : String
deriving DecidableEq, Repr

/-- Embedding of `Confluence.get_page` of the search tool
(confluence_search.py lines 123-132): fetch, convert the HTML body with
`markdownify` (the parameter `md`), build the absolute link.  A payload of
the wrong shape raises the `KeyError` Python would raise on `result["id"]`. -/
def searchGetPage (md : String → String) (api : Api) (base_url page_id : String) :
    List Step × Except String PageRecord :=
  let r := searchConfluenceGet api base_url ("content/" ++ page_id) pageParams
  (r.1,
    match r.2 with
    | Except.error e => Except.error e
    | Except.ok (JsonDoc.page pid title html webui) =>
        Except.ok ⟨pid, title, md html, base_url ++ webui⟩
    | Except.ok (JsonDoc.searchResults _) => Except.error "'id'")

/-- Embedding of `Confluence.get_page` of the page tool (confluence_page.py
lines 90-107): same as the search variant plus the image-strip
post-processing of the body. -/
def pageGetPage (md : String → String) (api : Api)
    (base_url page_id strip_images_mode : String) (ssl_verify : Bool) :
    List Step × Except String PageRecord :=
  let r := pageConfluenceGet api base_url ("content/" ++ page_id) pageParams ssl_verify
  (r.1,
    match r.2 with
    | Except.error e => Except.error e
    | Except.ok (JsonDoc.page pid title html webui) =>
        Except.ok ⟨pid, title, applyStripMode strip_images_mode (md html), base_url ++ webui⟩
    | Except.ok (JsonDoc.searchResults _) => Except.error "'id'")

/-! ## Tool entry points -/

/-- The error message of the credential validation guard. -/
def credErrorMsg : String :=
  "Please provide a username and API key or personal access token."

/-- The fetch-and-cite loop of `Tools.search_confluence`
(confluence_search.py lines 252-258): pages are fetched one at a time in
search order, each successful fetch is followed by its citation event, and
a failure aborts the loop with the pending exception. -/
def fetchLoop (md : String → String) (api : Api) (base_url : String) :
    List String → List Step × Except String (List PageRecord)
  | [] => ([], Except.ok [])
  | page_id :: rest =>
      let r := searchGetPage md api base_url page_id
      match r.2 with
      | Except.error e => (r.1, Except.error e)
      | Except.ok rec =>
          let tl := fetchLoop md api base_url rest
          (r.1 ++ Step.emit (citationEvent rec.title rec.link rec.body) :: tl.1,
            match tl.2 with
            | Except.error e => Except.error e
            | Except.ok recs => Except.ok (rec :: recs))

/-- The body of the `try` block of `Tools.search_confluence` (confluence_search.py
lines 239-258): mode dispatch, search call, then the fetch-and-cite loop.
Returns the ids the search yielded together with the normalized records. -/
def searchTryBody (md : String → String) (api : Api) (base_url : String)
    (search_type query : String) (limit : Int) :
    List Step × Except String (List String × List PageRecord) :=
  let s :=
    if search_type = "title" then search_by_title api base_url query limit
    else if search_type = "content" then search_by_content api base_url query limit
    else search_by_title_and_content api base_url query limit
  match s.2 with
  | Except.error e => (s.1, Except.error e)
  | Except.ok ids =>
      let f := fetchLoop md api base_url ids
      (s.1 ++ f.1,
        match f.2 with
        | Except.error e => Except.error e
        | Except.ok recs => Except.ok (ids, recs))

/-- Embedding of `Tools.search_confluence` (confluence_search.py lines
191-268).  `md` stands for the `markdownify` library call and `dumps` for
`json.dumps` on the list of records. -/
def search_confluence (md : String → String) (dumps : List PageRecord → String)
    (valves : SearchValves) (user : Option UserValves) (api : Api)
    (query ty : String) : List Step × String :=
  if credCheckFails valves.username valves.api_key user then
    ([Step.emit (statusEvent credErrorMsg true true)], "Error: " ++ credErrorMsg)
  else
    let search_type := strLower ty
    let pre := Step.emit (statusEvent
      ("Searching for " ++ search_type ++ " '" ++ query ++ "' on Confluence...") false false)
    let b := searchTryBody md api valves.base_url search_type query valves.result_limit
    match b.2 with
    | Except.error e =>
        (pre :: b.1 ++ [Step.emit (statusEvent
          ("Failed to search for " ++ search_type ++ " '" ++ query ++ "': " ++ e ++ ".")
          true true)],
         "Error: " ++ e)
    | Except.ok (ids, recs) =>
        (pre :: b.1 ++ [Step.emit (statusEvent
          ("Search for " ++ search_type ++ " '" ++ query ++ "' on Confluence complete. ("
            ++ toString ids.length ++ " results found)") true false)],
         dumps recs)

/-- Embedding of `Tools.get_confluence_page` (confluence_page.py lines
171-214).  `md` stands for `markdownify` and `dumps` for `json.dumps` on a
single record.  On success the code emits the final status event before the
citation event. -/
def get_confluence_page (md : String → String) (dumps : PageRecord → String)
    (valves : PageValves) (user : Option UserValves) (api : Api)
    (page_id : String) : List Step × String :=
  if credCheckFails valves.username valves.api_key user then
    ([Step.emit (statusEvent credErrorMsg true true)], "Error: " ++ credErrorMsg)
  else
    let pre := Step.emit (statusEvent
      ("Retrieving page '" ++ page_id ++ "' from Confluence...") false false)
    let r := pageGetPage md api valves.base_url page_id valves.strip_images valves.ssl_verify
    match r.2 with
    | Except.error e =>
        (pre :: r.1 ++ [Step.emit (statusEvent
          ("Failed to retrieve page '" ++ page_id ++ "': " ++ e ++ ".") true true)],
         "Error: " ++ e)
    | Except.ok rec =>
        (pre :: r.1 ++
          [Step.emit (statusEvent
            ("Retrieved page '" ++ page_id ++ "' from Confluence.") true false),
           Step.emit (citationEvent rec.title rec.link rec.body)],
         dumps rec)

/-! ## Base64 round-trip -/

/-- Decoding inverts encoding on each 6-bit group (finite check). -/
theorem b64Pos_b64Char_fin : ∀ n : Fin 64, b64Pos (b64Char n.val) = n.val := by decide

/-- Decoding inverts encoding on each 6-bit group. -/
theorem b64Pos_b64Char_lt (n : Nat) (h : n < 64) : b64Pos (b64Char n) = n :=
  b64Pos_b64Char_fin ⟨n, h⟩

/-- Alphabet characters are never the padding character (finite check). -/
theorem b64Char_ne_pad_fin : ∀ n : Fin 64, b64Char n.val ≠ '=' := by decide

/-- Alphabet characters are never the padding character. -/
theorem b64Char_ne_pad (n : Nat) : b64Char n ≠ '=' := by
  by_cases h : n < 64
  · exact b64Char_ne_pad_fin ⟨n, h⟩
  · rw [b64Char, List.getD_eq_default]
    · decide
    · have hlen : b64Alphabet.length = 64 := by decide
      omega

/-- The base64 encoding of a byte sequence decodes back to it. -/
theorem b64_roundtrip (bs : List Nat) :
    (∀ b ∈ bs, b < 256) → b64DecodeChunks (b64EncodeChunks bs) = bs := by
  induction bs using b64EncodeChunks.induct with
  | case1 => intro _; rfl
  | case2 b1 =>
      intro h
      have hb1 : b1 < 256 := h b1 (by simp)
      have h1 : b1 / 4 < 64 := by omega
      have h2 : b1 % 4 * 16 < 64 := by omega
      rw [b64EncodeChunks, b64DecodeChunks, if_pos rfl,
        b64Pos_b64Char_lt _ h1, b64Pos_b64Char_lt _ h2]
      have e1 : b1 / 4 * 4 + b1 % 4 * 16 / 16 = b1 := by omega
      rw [e1]
  | case3 b1 b2 =>
      intro h
      have hb1 : b1 < 256 := h b1 (by simp)
      have hb2 : b2 < 256 := h b2 (by simp)
      have h1 : b1 / 4 < 64 := by omega
      have h2 : b1 % 4 * 16 + b2 / 16 < 64 := by omega
      have h3 : b2 % 16 * 4 < 64 := by omega
      rw [b64EncodeChunks, b64DecodeChunks, if_neg (b64Char_ne_pad _), if_pos rfl,
        b64Pos_b64Char_lt _ h1, b64Pos_b64Char_lt _ h2, b64Pos_b64Char_lt _ h3]
      have e1 : b1 / 4 * 4 + (b1 % 4 * 16 + b2 / 16) / 16 = b1 := by omega
      have e2 : (b1 % 4 * 16 + b2 / 16) % 16 * 16 + b2 % 16 * 4 / 4 = b2 := by omega
      rw [e1, e2]
  | case4 b1 b2 b3 rest ih =>
      intro h
      have hb1 : b1 < 256 := h b1 (by simp)
      have hb2 : b2 < 256 := h b2 (by simp)
      have hb3 : b3 < 256 := h b3 (by simp)
      have h1 : b1 / 4 < 64 := by omega
      have h2 : b1 % 4 * 16 + b2 / 16 < 64 := by omega
      have h3 : b2 % 16 * 4 + b3 / 64 < 64 := by omega
      have h4 : b3 % 64 < 64 := by omega
      rw [b64EncodeChunks, b64DecodeChunks,
        if_neg (b64Char_ne_pad _), if_neg (b64Char_ne_pad _),
        b64Pos_b64Char_lt _ h1, b64Pos_b64Char_lt _ h2,
        b64Pos_b64Char_lt _ h3, b64Pos_b64Char_lt _ h4]
      have e1 : b1 / 4 * 4 + (b1 % 4 * 16 + b2 / 16) / 16 = b1 := by omega
      have e2 : (b1 % 4 * 16 + b2 / 16) % 16 * 16 + (b2 % 16 * 4 + b3 / 64) / 4 = b2 := by
        omega
      have e3 : (b2 % 16 * 4 + b3 / 64) % 4 * 64 + b3 % 64 = b3 := by omega
      rw [e1, e2, e3, ih (fun b hb => h b (by simp [hb]))]

/-- Every modelled byte is below 256. -/
theorem strBytes_lt (s : String) : ∀ b ∈ strBytes s, b < 256 := by
  intro b hb
  rw [strBytes] at hb
  obtain ⟨u, -, hu⟩ := List.mem_map.mp hb
  rw [← hu]
  exact u.toNat_lt

/-! ## Response accessors and per-call lemmas -/

/-- Result ids of a successful ok search response, `none` otherwise. -/
def searchIds (r : HttpResp) : Option (List String) :=
  if r.ok then
    match r.json with
    | JsonDoc.searchResults ids => some ids
    | JsonDoc.page _ _ _ _ => none
  else none

/-- Fields of a successful ok page response, `none` otherwise. -/
def pageDoc (r : HttpResp) : Option (String × String × String × String) :=
  if r.ok then
    match r.json with
    | JsonDoc.page pid title html webui => some (pid, title, html, webui)
    | JsonDoc.searchResults _ => none
  else none

/-- Record the search tool builds for a page id whose fetch succeeds. -/
def searchRecordOf (md : String → String) (api : Api) (base_url page_id : String) :
    PageRecord :=
  match pageDoc (api (pageUrl base_url page_id) pageParams) with
  | some (pid, title, html, webui) => ⟨pid, title, md html, base_url ++ webui⟩
  | none => ⟨"", "", "", ""⟩

/-- Record the page tool builds for a page id whose fetch succeeds. -/
def pageRecordOf (md : String → String) (api : Api)
    (base_url page_id strip_images_mode : String) : PageRecord :=
  match pageDoc (api (pageUrl base_url page_id) pageParams) with
  | some (pid, title, html, webui) =>
      ⟨pid, title, applyStripMode strip_images_mode (md html), base_url ++ webui⟩
  | none => ⟨"", "", "", ""⟩

/-- Behaviour of the search tool's page fetch on an ok page response. -/
theorem searchGetPage_ok (md : String → String) (api : Api)
    (base_url page_id : String)
    (h : (pageDoc (api (pageUrl base_url page_id) pageParams)).isSome = true) :
    searchGetPage md api base_url page_id =
      ([Step.httpGet (pageUrl base_url page_id) pageParams],
        Except.ok (searchRecordOf md api base_url page_id)) := by
  have hurl : base_url ++ "/rest/api/" ++ ("content/" ++ page_id) =
      pageUrl base_url page_id := rfl
  rw [searchGetPage, searchConfluenceGet, searchRecordOf, hurl]
  rw [pageDoc] at h ⊢
  generalize api (pageUrl base_url page_id) pageParams = resp at h ⊢
  obtain ⟨ok, text, json⟩ := resp
  cases ok
  · simp at h
  · cases json with
    | searchResults ids => simp at h
    | page pid title html webui => simp

/-- Behaviour of the page tool's page fetch on an ok page response. -/
theorem pageGetPage_ok (md : String → String) (api : Api)
    (base_url page_id strip_images_mode : String) (ssl_verify : Bool)
    (h : (pageDoc (api (pageUrl base_url page_id) pageParams)).isSome = true) :
    pageGetPage md api base_url page_id strip_images_mode ssl_verify =
      ([Step.httpGet (pageUrl base_url page_id) pageParams],
        Except.ok (pageRecordOf md api base_url page_id strip_images_mode)) := by
  have hurl : base_url ++ "/rest/api/" ++ ("content/" ++ page_id) =
      pageUrl base_url page_id := rfl
  rw [pageGetPage, pageConfluenceGet, pageRecordOf, hurl]
  rw [pageDoc] at h ⊢
  generalize api (pageUrl base_url page_id) pageParams = resp at h ⊢
  obtain ⟨ok, text, json⟩ := resp
  cases ok
  · simp at h
  · cases json with
    | searchResults ids => simp at h
    | page pid title html webui => simp

/-- Expected step sequence of the fetch-and-cite loop when every fetch
succeeds: for each id in order, one page request followed by one citation. -/
def perPageSteps (md : String → String) (api : Api) (base_url : String) :
    List String → List Step
  | [] => []
  | page_id :: rest =>
      Step.httpGet (pageUrl base_url page_id) pageParams ::
      Step.emit (citationEvent (searchRecordOf md api base_url page_id).title
        (searchRecordOf md api base_url page_id).link
        (searchRecordOf md api base_url page_id).body) ::
      perPageSteps md api base_url rest

/-- The fetch-and-cite loop on ids whose fetches all succeed: pages are
fetched strictly in order, one citation follows each fetch, and the records
come back in the same order. -/
theorem fetchLoop_ok (md : String → String) (api : Api) (base_url : String)
    (ids : List String)
    (h : ∀ page_id ∈ ids,
      (pageDoc (api (pageUrl base_url page_id) pageParams)).isSome = true) :
    fetchLoop md api base_url ids =
      (perPageSteps md api base_url ids,
        Except.ok (ids.map (searchRecordOf md api base_url))) := by
  induction ids with
  | nil => rfl
  | cons page_id rest ih =>
      rw [fetchLoop, searchGetPage_ok md api base_url page_id (h page_id (by simp))]
      dsimp only
      rw [ih (fun p hp => h p (by simp [hp]))]
      rfl

/-- Neither page requests nor citations are done-status events. -/
theorem perPageSteps_no_done (md : String → String) (api : Api) (base_url : String)
    (ids : List String) :
    (perPageSteps md api base_url ids).countP isDoneStatus = 0 := by
  induction ids with
  | nil => rfl
  | cons page_id rest ih =>
      rw [perPageSteps, List.countP_cons, List.countP_cons, ih]
      rfl

/-- The steps of the fetch-and-cite loop contain no done-status event, also
when a fetch fails midway. -/
theorem fetchLoop_no_done (md : String → String) (api : Api) (base_url : String)
    (ids : List String) :
    ((fetchLoop md api base_url ids).1).countP isDoneStatus = 0 := by
  induction ids with
  | nil => rfl
  | cons page_id rest ih =>
      rw [fetchLoop]
      split
      · rfl
      · dsimp only
        rw [List.countP_append, List.countP_cons]
        have h1 : (searchGetPage md api base_url page_id).1.countP isDoneStatus = 0 := rfl
        rw [h1, ih]
        rfl

/-- CQL the mode dispatch of `Tools.search_confluence` sends for a given
(lowered) search type. -/
def searchCqlFor (search_type query : String) : String :=
  if search_type = "title" then search_by_title_cql query
  else if search_type = "content" then search_by_content_cql query
  else search_by_title_and_content_cql query

/-- Query parameters of the dispatched search call. -/
def searchParams (search_type query : String) (limit : Int) : List (String × String) :=
  [("cql", searchCqlFor search_type query), ("limit", toString limit)]

/-- The three mode-specific search methods share one shape: one GET on the
search endpoint with the mode's CQL, ids extracted from the payload. -/
theorem searchDispatch_eq (api : Api) (base_url query : String) (limit : Int)
    (search_type : String) :
    (if search_type = "title" then search_by_title api base_url query limit
     else if search_type = "content" then search_by_content api base_url query limit
     else search_by_title_and_content api base_url query limit) =
    ((searchConfluenceGet api base_url "content/search"
        (searchParams search_type query limit)).1,
      (searchConfluenceGet api base_url "content/search"
        (searchParams search_type query limit)).2.bind extractIds) := by
  by_cases h1 : search_type = "title"
  · subst h1
    simp [search_by_title, searchParams, searchCqlFor]
  · by_cases h2 : search_type = "content"
    · subst h2
      have t1 : ¬(("content" : String) = "title") := by decide
      simp [search_by_content, searchParams, searchCqlFor, t1]
    · simp [search_by_title_and_content, searchParams, searchCqlFor, h1, h2]

/-- The steps of the try-block body contain no done-status event. -/
theorem searchTryBody_no_done (md : String → String) (api : Api)
    (base_url search_type query : String) (limit : Int) :
    ((searchTryBody md api base_url search_type query limit).1).countP isDoneStatus
      = 0 := by
  rw [searchTryBody, searchDispatch_eq]
  split
  · rfl
  · dsimp only
    rw [List.countP_append, fetchLoop_no_done]
    rfl

/-- Behaviour of the search GET when the oracle answers with an ok search
payload. -/
theorem searchConfluenceGet_of_ids (api : Api) (base_url : String)
    (params : List (String × String)) (ids : List String)
    (hs : searchIds (api (searchUrl base_url) params) = some ids) :
    searchConfluenceGet api base_url "content/search" params =
      ([Step.httpGet (searchUrl base_url) params],
        Except.ok (JsonDoc.searchResults ids)) := by
  have hurl : base_url ++ "/rest/api/" ++ "content/search" = searchUrl base_url := rfl
  rw [searchConfluenceGet, hurl]
  rw [searchIds] at hs
  generalize api (searchUrl base_url) params = resp at hs ⊢
  obtain ⟨ok, text, json⟩ := resp
  cases ok
  · simp at hs
  · cases json with
    | page a b c d => simp at hs
    | searchResults ids2 =>
        simp at hs
        subst hs
        simp

/-- The try-block body on a fully successful search: the search request is
followed by the per-page request/citation pairs in search order, and the
ids are returned with their records in the same order. -/
theorem searchTryBody_ok (md : String → String) (api : Api)
    (base_url search_type query : String) (limit : Int) (ids : List String)
    (hs : searchIds (api (searchUrl base_url) (searchParams search_type query limit))
      = some ids)
    (hp : ∀ page_id ∈ ids,
      (pageDoc (api (pageUrl base_url page_id) pageParams)).isSome = true) :
    searchTryBody md api base_url search_type query limit =
      (Step.httpGet (searchUrl base_url) (searchParams search_type query limit) ::
        perPageSteps md api base_url ids,
        Except.ok (ids, ids.map (searchRecordOf md api base_url))) := by
  rw [searchTryBody, searchDispatch_eq, searchConfluenceGet_of_ids api base_url _ ids hs]
  dsimp only [Except.bind, extractIds]
  rw [fetchLoop_ok md api base_url ids hp]
  simp

/-! ## Entry point behaviour lemmas -/

/-- Successful run of `Tools.search_confluence` (valid credentials, search
and all fetches succeed): searching status, search request, per-page
request/citation pairs in order, complete status with the result count,
records serialized in order. -/
theorem search_confluence_ok (md : String → String)
    (dumps : List PageRecord → String) (valves : SearchValves)
    (user : Option UserValves) (api : Api) (query ty : String) (ids : List String)
    (hv : credCheckFails valves.username valves.api_key user = false)
    (hs : searchIds (api (searchUrl valves.base_url)
      (searchParams (strLower ty) query valves.result_limit)) = some ids)
    (hp : ∀ page_id ∈ ids,
      (pageDoc (api (pageUrl valves.base_url page_id) pageParams)).isSome = true) :
    search_confluence md dumps valves user api query ty =
      (Step.emit (statusEvent
          ("Searching for " ++ strLower ty ++ " '" ++ query ++ "' on Confluence...")
          false false) ::
        Step.httpGet (searchUrl valves.base_url)
          (searchParams (strLower ty) query valves.result_limit) ::
        perPageSteps md api valves.base_url ids ++
        [Step.emit (statusEvent
          ("Search for " ++ strLower ty ++ " '" ++ query ++ "' on Confluence complete. ("
            ++ toString ids.length ++ " results found)") true false)],
       dumps (ids.map (searchRecordOf md api valves.base_url))) := by
  rw [search_confluence, if_neg (by rw [hv]; simp)]
  dsimp only
  rw [searchTryBody_ok md api valves.base_url (strLower ty) query valves.result_limit
    ids hs hp]

/-- Failing run of `Tools.search_confluence` after validation: the
exception text is reported in one final error status and returned as an
`Error: ` string; no other done-status event is emitted. -/
theorem search_confluence_error (md : String → String)
    (dumps : List PageRecord → String) (valves : SearchValves)
    (user : Option UserValves) (api : Api) (query ty e : String)
    (hv : credCheckFails valves.username valves.api_key user = false)
    (he : (searchTryBody md api valves.base_url (strLower ty) query
      valves.result_limit).2 = Except.error e) :
    search_confluence md dumps valves user api query ty =
      (Step.emit (statusEvent
          ("Searching for " ++ strLower ty ++ " '" ++ query ++ "' on Confluence...")
          false false) ::
        (searchTryBody md api valves.base_url (strLower ty) query
          valves.result_limit).1 ++
        [Step.emit (statusEvent
          ("Failed to search for " ++ strLower ty ++ " '" ++ query ++ "': " ++ e ++ ".")
          true true)],
       "Error: " ++ e) := by
  rw [search_confluence, if_neg (by rw [hv]; simp)]
  dsimp only
  rw [he]

/-- Successful run of `Tools.get_confluence_page`: retrieving status, page
request, complete status, and only then the citation, before returning the
serialized record. -/
theorem get_confluence_page_ok (md : String → String)
    (dumps : PageRecord → String) (valves : PageValves)
    (user : Option UserValves) (api : Api) (page_id : String)
    (hv : credCheckFails valves.username valves.api_key user = false)
    (hp : (pageDoc (api (pageUrl valves.base_url page_id) pageParams)).isSome
      = true) :
    get_confluence_page md dumps valves user api page_id =
      ([Step.emit (statusEvent
          ("Retrieving page '" ++ page_id ++ "' from Confluence...") false false),
        Step.httpGet (pageUrl valves.base_url page_id) pageParams,
        Step.emit (statusEvent
          ("Retrieved page '" ++ page_id ++ "' from Confluence.") true false),
        Step.emit (citationEvent
          (pageRecordOf md api valves.base_url page_id valves.strip_images).title
          (pageRecordOf md api valves.base_url page_id valves.strip_images).link
          (pageRecordOf md api valves.base_url page_id valves.strip_images).body)],
       dumps (pageRecordOf md api valves.base_url page_id valves.strip_images)) := by
  rw [get_confluence_page, if_neg (by rw [hv]; simp)]
  dsimp only
  rw [pageGetPage_ok md api valves.base_url page_id valves.strip_images
    valves.ssl_verify hp]
  rfl

/-- Failing run of `Tools.get_confluence_page` after validation. -/
theorem get_confluence_page_error (md : String → String)
    (dumps : PageRecord → String) (valves : PageValves)
    (user : Option UserValves) (api : Api) (page_id e : String)
    (hv : credCheckFails valves.username valves.api_key user = false)
    (he : (pageGetPage md api valves.base_url page_id valves.strip_images
      valves.ssl_verify).2 = Except.error e) :
    get_confluence_page md dumps valves user api page_id =
      (Step.emit (statusEvent
          ("Retrieving page '" ++ page_id ++ "' from Confluence...") false false) ::
        (pageGetPage md api valves.base_url page_id valves.strip_images
          valves.ssl_verify).1 ++
        [Step.emit (statusEvent
          ("Failed to retrieve page '" ++ page_id ++ "': " ++ e ++ ".") true true)],
       "Error: " ++ e) := by
  rw [get_confluence_page, if_neg (by rw [hv]; simp)]
  dsimp only
  rw [he]

/-- HTTP requests of the per-page steps: one page request per id, in
order. -/
theorem perPageSteps_httpCalls (md : String → String) (api : Api)
    (base_url : String) (ids : List String) :
    httpCalls (perPageSteps md api base_url ids) =
      ids.map (fun page_id => (pageUrl base_url page_id, pageParams)) := by
  induction ids with
  | nil => rfl
  | cons page_id rest ih =>
      rw [perPageSteps]
      simp only [httpCalls, List.filterMap_cons] at ih ⊢
      rw [ih, List.map_cons]

/-- Emitted events of the per-page steps: exactly one citation per id, in
order. -/
theorem perPageSteps_emitted (md : String → String) (api : Api)
    (base_url : String) (ids : List String) :
    emittedEvents (perPageSteps md api base_url ids) =
      ids.map (fun page_id =>
        citationEvent (searchRecordOf md api base_url page_id).title
          (searchRecordOf md api base_url page_id).link
          (searchRecordOf md api base_url page_id).body) := by
  induction ids with
  | nil => rfl
  | cons page_id rest ih =>
      rw [perPageSteps]
      simp only [emittedEvents, List.filterMap_cons] at ih ⊢
      rw [ih, List.map_cons]

/-! ## Concrete fixtures for counterexamples and witnesses -/

/-- Identity stand-in for `markdownify` at concrete inputs. -/
def mdId : String → String := fun s => s

/-- Constant stand-in for `json.dumps` on a record. -/
def dumpsOne : PageRecord → String := fun _ => "json"

/-- Constant stand-in for `json.dumps` on a record list. -/
def dumpsList : List PageRecord → String := fun _ => "json"

/-- Oracle answering every request with a failing response. -/
def apiFail : Api := fun _ _ =>
  { ok := false, text := "boom", json := JsonDoc.searchResults [] }

/-- Oracle answering every request with one ok page payload. -/
def apiPage : Api := fun _ _ =>
  { ok := true, text := "", json := JsonDoc.page "12345" "Title" "<p>Hi</p>" "/w" }

/-- Oracle: search yields pages `1` and `2`; any other request yields a
page payload. -/
def apiTwo : Api := fun url _ =>
  if url = "b/rest/api/content/search" then
    { ok := true, text := "", json := JsonDoc.searchResults ["1", "2"] }
  else
    { ok := true, text := "", json := JsonDoc.page "1" "T" "H" "/w" }

/-- Concrete page-tool configuration with the non-stripping mode. -/
def valvesP0 : PageValves := ⟨"b", "u", "k", true, "none"⟩

/-- Concrete search-tool configuration. -/
def valvesS0 : SearchValves := ⟨"b", "u", "k", 5⟩

/-! ## Claim theorems -/

/-- Claim C3: for every query and every search mode, the built CQL is the
mode template applied to each whitespace-separated term, joined by ` OR `,
wrapped in one parenthesis pair with `AND type="page"` appended once; a
query with zero terms falls back to a single clause built from the raw
query string.  The clause count equals the term count whenever there is at
least one term. -/
theorem c3_query_builder (query : String) :
    search_by_title_cql query = cqlSpec tmplTitle query ∧
    search_by_content_cql query = cqlSpec tmplContent query ∧
    search_by_title_and_content_cql query = cqlSpec tmplBoth query ∧
    (pySplit query ≠ [] → cqlUnits query = pySplit query ∧
      ∀ tmpl : String → String,
        ((cqlUnits query).map tmpl).length = (pySplit query).length) ∧
    (pySplit query = [] → cqlUnits query = [query]) := by
  by_cases h : pySplit query = []
  · refine ⟨?_, ?_, ?_, fun hne => absurd h hne, fun _ => by rw [cqlUnits, if_pos h]⟩
    · rw [search_by_title_cql, cqlSpec, cqlUnits, if_pos h, if_pos h]
      rfl
    · rw [search_by_content_cql, cqlSpec, cqlUnits, if_pos h, if_pos h]
      rfl
    · rw [search_by_title_and_content_cql, cqlSpec, cqlUnits, if_pos h, if_pos h]
      rfl
  · refine ⟨?_, ?_, ?_, fun _ => ⟨by rw [cqlUnits, if_neg h],
      fun tmpl => by rw [cqlUnits, if_neg h, List.length_map]⟩,
      fun heq => absurd heq h⟩
    · rw [search_by_title_cql, cqlSpec, cqlUnits, if_neg h, if_neg h]
      rfl
    · rw [search_by_content_cql, cqlSpec, cqlUnits, if_neg h, if_neg h]
      rfl
    · rw [search_by_title_and_content_cql, cqlSpec, cqlUnits, if_neg h, if_neg h]
      rfl

/-- Witness for C3 at the concrete queries `"budget report"` (two terms)
and `""` (zero terms). -/
theorem c3_query_builder_witness :
    (pySplit "budget report" ≠ [] ∧
      cqlUnits "budget report" = pySplit "budget report" ∧
      ((cqlUnits "budget report").map tmplTitle).length = 2) ∧
    (pySplit "" = [] ∧ cqlUnits "" = [""]) := by
  refine ⟨⟨by decide, ?_, ?_⟩, by decide, ?_⟩
  · exact ((c3_query_builder "budget report").2.2.2.1 (by decide)).1
  · rw [((c3_query_builder "budget report").2.2.2.1 (by decide)).2 tmplTitle]
    decide
  · exact (c3_query_builder "").2.2.2.2 (by decide)

/-- Claim C4: credential resolution takes the override username and secret
exactly when they are non-empty and the defaults otherwise; the auth mode
flag comes from the override when overrides are present and is basic
(api-key) auth otherwise; empty override username and secret leave the
defaults unchanged. -/
theorem c4_credential_resolution (defUsername defApiKey : String)
    (o : UserValves) (m : Bool) :
    resolveCreds defUsername defApiKey (some o) =
      (o.api_key_auth,
        (if o.username = "" then defUsername else o.username),
        (if o.api_key = "" then defApiKey else o.api_key)) ∧
    resolveCreds defUsername defApiKey none = (true, defUsername, defApiKey) ∧
    resolveCreds defUsername defApiKey (some ⟨m, "", ""⟩) =
      (m, defUsername, defApiKey) := by
  exact ⟨rfl, rfl, rfl⟩

/-- Claim C9: the auth encoder is a function of the credentials (it is a
Lean function, hence deterministic); the Basic header is `Basic ` followed
by the base64 encoding of the UTF-8 bytes of `username:secret`, and
decoding the payload after `Basic ` recovers exactly those bytes; the
Bearer header is `Bearer ` followed by the secret. -/
theorem c9_auth_encoder_roundtrip (username secret : String) :
    authenticate_api_key username secret =
      "Basic " ++ (b64EncodeChunks (strBytes (username ++ ":" ++ secret))).asString ∧
    b64DecodeChunks (((authenticate_api_key username secret).toList).drop 6) =
      strBytes (username ++ ":" ++ secret) ∧
    authenticate_personal_access_token secret = "Bearer " ++ secret := by
  refine ⟨rfl, ?_, rfl⟩
  have h1 : (authenticate_api_key username secret).toList =
      "Basic ".toList ++ b64EncodeChunks (strBytes (username ++ ":" ++ secret)) := by
    rw [authenticate_api_key]
    show ("Basic " ++ (b64EncodeChunks (strBytes (username ++ ":" ++ secret))).asString).data
      = "Basic ".data ++ b64EncodeChunks (strBytes (username ++ ":" ++ secret))
    rw [String.data_append]
    rfl
  rw [h1]
  have h6 : ("Basic ".toList).length = 6 := by decide
  rw [← h6, List.drop_left]
  exact b64_roundtrip _ (strBytes_lt _)

/-- Claim C7: stripping with policy All performs a substitution pass whose
deleted blocks are exactly image references and whose kept positions start
no image reference; with policy EmbeddedOnly the same holds for embedded
(`data:`) image references, so exactly those are removed; any other policy
(in particular None) leaves the body untouched; and after either stripping
pass no three consecutive newlines (hence no run of three or more blank
lines) remain. -/
theorem c7_image_stripping (body : String) :
    StripRel IsImgRef body.toList (subImage true body.toList) ∧
    StripRel IsDataImgRef body.toList (subImage false body.toList) ∧
    strip_images body true = (collapseNewlines (subImage true body.toList)).asString ∧
    strip_images body false = (collapseNewlines (subImage false body.toList)).asString ∧
    applyStripMode "none" body = body ∧
    hasNNN ((strip_images body true).toList) = false ∧
    hasNNN ((strip_images body false).toList) = false := by
  refine ⟨subImage_all_stripRel _, subImage_data_stripRel _, rfl, rfl, ?_, ?_, ?_⟩
  · rw [applyStripMode, if_neg (by decide), if_neg (by decide)]
  · exact hasNNN_collapseNewlines _
  · exact hasNNN_collapseNewlines _

/-- Claim C10: for a body without any image reference, both stripping
passes reduce to the unconditional blank-line collapse, so such bodies can
still change (witnessed by any body with a three-newline run, which the
no-triple-newline property forces to change); under policy None the body is
returned exactly as `markdownify` produced it. -/
theorem c10_collapse_unconditional (body : String) (strip_all : Bool) :
    (containsImg body.toList = false →
      strip_images body strip_all = (collapseNewlines body.toList).asString) ∧
    (containsImg body.toList = false → hasNNN body.toList = true →
      strip_images body strip_all ≠ body) ∧
    applyStripMode "none" body = body := by
  refine ⟨?_, ?_, ?_⟩
  · intro h
    rw [strip_images, subImage_of_not_containsImg _ _ h]
  · intro h hn heq
    have hfalse : hasNNN ((strip_images body strip_all).toList) = false :=
      hasNNN_collapseNewlines _
    rw [heq] at hfalse
    rw [hn] at hfalse
    exact Bool.noConfusion hfalse
  · rw [applyStripMode, if_neg (by decide), if_neg (by decide)]

/-- Witness for C10 at the image-free body `"a\n\n\n\nb"`, which contains a
run of four newlines and therefore changes under both stripping modes. -/
theorem c10_collapse_unconditional_witness :
    (containsImg ("a\n\n\n\nb".toList) = false ∧
      hasNNN ("a\n\n\n\nb".toList) = true) ∧
    strip_images "a\n\n\n\nb" true ≠ "a\n\n\n\nb" := by
  refine ⟨⟨by decide, by decide⟩, ?_⟩
  exact (c10_collapse_unconditional "a\n\n\n\nb" true).2.1 (by decide) (by decide)

/-- Claim C1 counterexample: the confluence_api.py client variant, given a
response whose status indicates failure, does not raise: it returns the
parsed payload. -/
theorem c1_counterexample :
    (apiFail ("b" ++ "/rest/api/" ++ "x") []).ok = false ∧
    (apiConfluenceGet apiFail "b" "x" []).2 = Except.ok (JsonDoc.searchResults []) ∧
    ¬ ∃ msg, (apiConfluenceGet apiFail "b" "x" []).2 = Except.error msg := by
  refine ⟨rfl, rfl, ?_⟩
  rintro ⟨msg, hmsg⟩
  rw [apiConfluenceGet] at hmsg
  exact Except.noConfusion hmsg

/-- Claim C1 amended: the search-tool and page-tool client variants issue
exactly one GET and raise an error carrying the response body text exactly
when the status indicates failure, returning the parsed payload otherwise;
the confluence_api.py variant also issues exactly one GET but returns the
parsed payload unconditionally, never raising on a failing status.  No
variant retries. -/
theorem c1_client_get (api : Api) (base_url endpoint : String)
    (params : List (String × String)) (ssl_verify : Bool) :
    (searchConfluenceGet api base_url endpoint params).1 =
      [Step.httpGet (base_url ++ "/rest/api/" ++ endpoint) params] ∧
    (pageConfluenceGet api base_url endpoint params ssl_verify).1 =
      [Step.httpGet (base_url ++ "/rest/api/" ++ endpoint) params] ∧
    (apiConfluenceGet api base_url endpoint params).1 =
      [Step.httpGet (base_url ++ "/rest/api/" ++ endpoint) params] ∧
    ((api (base_url ++ "/rest/api/" ++ endpoint) params).ok = false →
      (searchConfluenceGet api base_url endpoint params).2 =
        Except.error ("Failed to get data from Confluence: " ++
          (api (base_url ++ "/rest/api/" ++ endpoint) params).text) ∧
      (pageConfluenceGet api base_url endpoint params ssl_verify).2 =
        Except.error ("Failed to get data from Confluence: " ++
          (api (base_url ++ "/rest/api/" ++ endpoint) params).text)) ∧
    ((api (base_url ++ "/rest/api/" ++ endpoint) params).ok = true →
      (searchConfluenceGet api base_url endpoint params).2 =
        Except.ok (api (base_url ++ "/rest/api/" ++ endpoint) params).json ∧
      (pageConfluenceGet api base_url endpoint params ssl_verify).2 =
        Except.ok (api (base_url ++ "/rest/api/" ++ endpoint) params).json) ∧
    (apiConfluenceGet api base_url endpoint params).2 =
      Except.ok (api (base_url ++ "/rest/api/" ++ endpoint) params).json := by
  refine ⟨rfl, rfl, rfl, ?_, ?_, rfl⟩
  · intro h
    constructor
    · rw [searchConfluenceGet]
      simp [h]
    · rw [pageConfluenceGet]
      simp [h]
  · intro h
    constructor
    · rw [searchConfluenceGet]
      simp [h]
    · rw [pageConfluenceGet]
      simp [h]

/-- Witness for C1 amended at a failing and a succeeding oracle. -/
theorem c1_client_get_witness :
    ((apiFail ("b" ++ "/rest/api/" ++ "x") []).ok = false ∧
      (apiPage ("b" ++ "/rest/api/" ++ "x") []).ok = true) ∧
    ((searchConfluenceGet apiFail "b" "x" []).2 =
      Except.error ("Failed to get data from Confluence: " ++
        (apiFail ("b" ++ "/rest/api/" ++ "x") []).text) ∧
     (pageConfluenceGet apiFail "b" "x" [] true).2 =
      Except.error ("Failed to get data from Confluence: " ++
        (apiFail ("b" ++ "/rest/api/" ++ "x") []).text)) ∧
    ((searchConfluenceGet apiPage "b" "x" []).2 =
      Except.ok (apiPage ("b" ++ "/rest/api/" ++ "x") []).json ∧
     (pageConfluenceGet apiPage "b" "x" [] true).2 =
      Except.ok (apiPage ("b" ++ "/rest/api/" ++ "x") []).json) := by
  refine ⟨⟨rfl, rfl⟩, ?_, ?_⟩
  · exact (c1_client_get apiFail "b" "x" [] true).2.2.2.1 rfl
  · exact (c1_client_get apiPage "b" "x" [] true).2.2.2.2.1 rfl

/-- The event order required by claim C2 as stated: an in-progress status,
then one citation, then a complete status. -/
def claimC2Order (evs : List Event) : Prop :=
  ∃ d1 d2 doc src hflag nm,
    evs = [Event.status d1 "in_progress" false,
      Event.citation doc src hflag nm,
      Event.status d2 "complete" true]

/-- Claim C2 counterexample: in a successful concrete get-page run the
second emitted event is the complete status and the citation comes last,
so the claimed order (citation before the complete status) is violated. -/
theorem c2_counterexample :
    ¬ claimC2Order
      (emittedEvents (get_confluence_page mdId dumpsOne valvesP0 none apiPage "12345").1) := by
  have hev : emittedEvents
      (get_confluence_page mdId dumpsOne valvesP0 none apiPage "12345").1 =
      [statusEvent "Retrieving page '12345' from Confluence..." false false,
       statusEvent "Retrieved page '12345' from Confluence." true false,
       citationEvent "Title" "b/w" "<p>Hi</p>"] := by rfl
  rw [hev]
  rintro ⟨d1, d2, doc, src, hflag, nm, heq⟩
  simp [statusEvent, citationEvent] at heq

/-- Claim C2 amended: in every successful get-page invocation the events
are emitted in the order retrieving in-progress status, then the final
complete status, then exactly one citation for the fetched page, and only
then is the normalized record returned serialized. -/
theorem c2_get_page_event_order (md : String → String)
    (dumps : PageRecord → String) (valves : PageValves)
    (user : Option UserValves) (api : Api) (page_id : String)
    (hv : credCheckFails valves.username valves.api_key user = false)
    (hp : (pageDoc (api (pageUrl valves.base_url page_id) pageParams)).isSome
      = true) :
    emittedEvents (get_confluence_page md dumps valves user api page_id).1 =
      [statusEvent ("Retrieving page '" ++ page_id ++ "' from Confluence...")
        false false,
       statusEvent ("Retrieved page '" ++ page_id ++ "' from Confluence.")
        true false,
       citationEvent
        (pageRecordOf md api valves.base_url page_id valves.strip_images).title
        (pageRecordOf md api valves.base_url page_id valves.strip_images).link
        (pageRecordOf md api valves.base_url page_id valves.strip_images).body] ∧
    (get_confluence_page md dumps valves user api page_id).2 =
      dumps (pageRecordOf md api valves.base_url page_id valves.strip_images) := by
  rw [get_confluence_page_ok md dumps valves user api page_id hv hp]
  exact ⟨rfl, rfl⟩

/-- Witness for C2 amended at a concrete configuration and oracle. -/
theorem c2_get_page_event_order_witness :
    (credCheckFails valvesP0.username valvesP0.api_key none = false ∧
      (pageDoc (apiPage (pageUrl valvesP0.base_url "12345") pageParams)).isSome
        = true) ∧
    emittedEvents (get_confluence_page mdId dumpsOne valvesP0 none apiPage "12345").1 =
      [statusEvent "Retrieving page '12345' from Confluence..." false false,
       statusEvent "Retrieved page '12345' from Confluence." true false,
       citationEvent
        (pageRecordOf mdId apiPage valvesP0.base_url "12345" valvesP0.strip_images).title
        (pageRecordOf mdId apiPage valvesP0.base_url "12345" valvesP0.strip_images).link
        (pageRecordOf mdId apiPage valvesP0.base_url "12345" valvesP0.strip_images).body] := by
  refine ⟨⟨by decide, by decide⟩, ?_⟩
  have h := c2_get_page_event_order mdId dumpsOne valvesP0 none apiPage "12345"
    (by decide) (by decide)
  exact h.1

/-- The claim-side validation condition implies the code's guard. -/
theorem credCheckFails_of (defUsername defApiKey : String)
    (user : Option UserValves)
    (h : (resolveCreds defUsername defApiKey user).2.2 = "" ∨
      ((resolveCreds defUsername defApiKey user).1 = true ∧
       (resolveCreds defUsername defApiKey user).2.1 = "")) :
    credCheckFails defUsername defApiKey user = true := by
  rw [credCheckFails]
  rcases h with h | ⟨h1, h2⟩
  · simp [h]
  · simp [h1, h2]

/-- Claim C5: when the resolved secret is empty, or the resolved mode is
basic auth and the resolved username is empty, both tool entry points stop
at validation: one error status is emitted, the fixed error string is
returned, and no HTTP request is issued (the embedded runs contain no
request step; in the source the `Confluence` client is only constructed
after this guard). -/
theorem c5_validation_guard (md : String → String)
    (dumpsL : List PageRecord → String) (dumpsP : PageRecord → String)
    (valvesS : SearchValves) (valvesP : PageValves)
    (user userP : Option UserValves) (api : Api) (query ty page_id : String)
    (hv : (resolveCreds valvesS.username valvesS.api_key user).2.2 = "" ∨
      ((resolveCreds valvesS.username valvesS.api_key user).1 = true ∧
       (resolveCreds valvesS.username valvesS.api_key user).2.1 = ""))
    (hvP : (resolveCreds valvesP.username valvesP.api_key userP).2.2 = "" ∨
      ((resolveCreds valvesP.username valvesP.api_key userP).1 = true ∧
       (resolveCreds valvesP.username valvesP.api_key userP).2.1 = "")) :
    search_confluence md dumpsL valvesS user api query ty =
      ([Step.emit (statusEvent credErrorMsg true true)], "Error: " ++ credErrorMsg) ∧
    get_confluence_page md dumpsP valvesP userP api page_id =
      ([Step.emit (statusEvent credErrorMsg true true)], "Error: " ++ credErrorMsg) ∧
    httpCalls (search_confluence md dumpsL valvesS user api query ty).1 = [] ∧
    httpCalls (get_confluence_page md dumpsP valvesP userP api page_id).1 = [] := by
  have hc := credCheckFails_of valvesS.username valvesS.api_key user hv
  have hcP := credCheckFails_of valvesP.username valvesP.api_key userP hvP
  have h1 : search_confluence md dumpsL valvesS user api query ty =
      ([Step.emit (statusEvent credErrorMsg true true)], "Error: " ++ credErrorMsg) := by
    rw [search_confluence, if_pos hc]
  have h2 : get_confluence_page md dumpsP valvesP userP api page_id =
      ([Step.emit (statusEvent credErrorMsg true true)], "Error: " ++ credErrorMsg) := by
    rw [get_confluence_page, if_pos hcP]
  refine ⟨h1, h2, ?_, ?_⟩
  · rw [h1]
    rfl
  · rw [h2]
    rfl

/-- Witness for C5: empty default secret with no overrides. -/
theorem c5_validation_guard_witness :
    ((resolveCreds "u" "" none).2.2 = "" ∧ (resolveCreds "" "k" none).2.1 = "") ∧
    search_confluence mdId dumpsList ⟨"b", "u", "", 5⟩ none apiPage "q" "title" =
      ([Step.emit (statusEvent credErrorMsg true true)], "Error: " ++ credErrorMsg) ∧
    get_confluence_page mdId dumpsOne ⟨"b", "", "k", true, "none"⟩ none apiPage "12345" =
      ([Step.emit (statusEvent credErrorMsg true true)], "Error: " ++ credErrorMsg) := by
  have h := c5_validation_guard mdId dumpsList dumpsOne ⟨"b", "u", "", 5⟩
    ⟨"b", "", "k", true, "none"⟩ none none apiPage "q" "title" "12345"
    (Or.inl rfl) (Or.inr ⟨rfl, rfl⟩)
  exact ⟨⟨rfl, rfl⟩, h.1, h.2.1⟩

/-- Claim C6: every exception raised inside a tool entry point after
validation is caught at the boundary: the run still returns a plain string
`Error: ` followed by the error message (it never propagates), the trace
contains exactly one done status event, and the last step is the failure
status (done, error glyph) whose description carries the error text. -/
theorem c6_error_boundary (md : String → String)
    (dumpsL : List PageRecord → String) (dumpsP : PageRecord → String)
    (valvesS : SearchValves) (valvesP : PageValves)
    (user userP : Option UserValves) (api : Api)
    (query ty page_id e1 e2 : String)
    (hv : credCheckFails valvesS.username valvesS.api_key user = false)
    (hvP : credCheckFails valvesP.username valvesP.api_key userP = false) :
    ((searchTryBody md api valvesS.base_url (strLower ty) query
        valvesS.result_limit).2 = Except.error e1 →
      (search_confluence md dumpsL valvesS user api query ty).2 = "Error: " ++ e1 ∧
      ((search_confluence md dumpsL valvesS user api query ty).1).countP isDoneStatus
        = 1 ∧
      (search_confluence md dumpsL valvesS user api query ty).1.getLast? =
        some (Step.emit (statusEvent
          ("Failed to search for " ++ strLower ty ++ " '" ++ query ++ "': " ++ e1 ++ ".")
          true true))) ∧
    ((pageGetPage md api valvesP.base_url page_id valvesP.strip_images
        valvesP.ssl_verify).2 = Except.error e2 →
      (get_confluence_page md dumpsP valvesP userP api page_id).2 = "Error: " ++ e2 ∧
      ((get_confluence_page md dumpsP valvesP userP api page_id).1).countP isDoneStatus
        = 1 ∧
      (get_confluence_page md dumpsP valvesP userP api page_id).1.getLast? =
        some (Step.emit (statusEvent
          ("Failed to retrieve page '" ++ page_id ++ "': " ++ e2 ++ ".")
          true true))) := by
  constructor
  · intro he
    have hrun := search_confluence_error md dumpsL valvesS user api query ty e1 hv he
    refine ⟨by rw [hrun], ?_, ?_⟩
    · rw [hrun]
      dsimp only
      rw [List.countP_append, List.countP_cons, searchTryBody_no_done]
      rfl
    · rw [hrun]
      dsimp only
      rw [List.getLast?_concat]
  · intro he
    have hrun := get_confluence_page_error md dumpsP valvesP userP api page_id e2
      hvP he
    refine ⟨by rw [hrun], ?_, ?_⟩
    · rw [hrun]
      dsimp only
      rw [List.countP_append, List.countP_cons]
      rfl
    · rw [hrun]
      dsimp only
      rw [List.getLast?_concat]

/-- Witness for C6: a failing oracle makes both entry points fail after
validation, returning the error string and finishing on the failure
status. -/
theorem c6_error_boundary_witness :
    ((searchTryBody mdId apiFail valvesS0.base_url (strLower "title") "q"
        valvesS0.result_limit).2 =
      Except.error "Failed to get data from Confluence: boom" ∧
     (pageGetPage mdId apiFail valvesP0.base_url "12345" valvesP0.strip_images
        valvesP0.ssl_verify).2 =
      Except.error "Failed to get data from Confluence: boom") ∧
    ((search_confluence mdId dumpsList valvesS0 none apiFail "q" "title").2 =
      "Error: " ++ "Failed to get data from Confluence: boom" ∧
     ((search_confluence mdId dumpsList valvesS0 none apiFail "q" "title").1).countP
        isDoneStatus = 1) ∧
    ((get_confluence_page mdId dumpsOne valvesP0 none apiFail "12345").2 =
      "Error: " ++ "Failed to get data from Confluence: boom" ∧
     ((get_confluence_page mdId dumpsOne valvesP0 none apiFail "12345").1).countP
        isDoneStatus = 1) := by
  have h := c6_error_boundary mdId dumpsList dumpsOne valvesS0 valvesP0 none none
    apiFail "q" "title" "12345" "Failed to get data from Confluence: boom"
    "Failed to get data from Confluence: boom" (by decide) (by decide)
  have h1 := h.1 (by rfl)
  have h2 := h.2 (by rfl)
  exact ⟨⟨by rfl, by rfl⟩, ⟨h1.1, h1.2.1⟩, ⟨h2.1, h2.2.1⟩⟩

/-- Claim C8: in every successful search invocation the pages returned by
the search are fetched one at a time in search order, each fetch is
followed by exactly one citation for that page (shown by the full step
trace), the requests are the search call followed by the page calls in
order, the emitted events are the searching status, one citation per page
in order, and a final complete status reporting the result count, and the
return value is the serialization of the normalized records in the same
order. -/
theorem c8_search_pipeline (md : String → String)
    (dumps : List PageRecord → String) (valves : SearchValves)
    (user : Option UserValves) (api : Api) (query ty : String)
    (ids : List String)
    (hv : credCheckFails valves.username valves.api_key user = false)
    (hs : searchIds (api (searchUrl valves.base_url)
      (searchParams (strLower ty) query valves.result_limit)) = some ids)
    (hp : ∀ page_id ∈ ids,
      (pageDoc (api (pageUrl valves.base_url page_id) pageParams)).isSome = true) :
    search_confluence md dumps valves user api query ty =
      (Step.emit (statusEvent
          ("Searching for " ++ strLower ty ++ " '" ++ query ++ "' on Confluence...")
          false false) ::
        Step.httpGet (searchUrl valves.base_url)
          (searchParams (strLower ty) query valves.result_limit) ::
        perPageSteps md api valves.base_url ids ++
        [Step.emit (statusEvent
          ("Search for " ++ strLower ty ++ " '" ++ query ++ "' on Confluence complete. ("
            ++ toString ids.length ++ " results found)") true false)],
       dumps (ids.map (searchRecordOf md api valves.base_url))) ∧
    httpCalls (search_confluence md dumps valves user api query ty).1 =
      (searchUrl valves.base_url, searchParams (strLower ty) query valves.result_limit)
        :: ids.map (fun page_id => (pageUrl valves.base_url page_id, pageParams)) ∧
    emittedEvents (search_confluence md dumps valves user api query ty).1 =
      statusEvent
          ("Searching for " ++ strLower ty ++ " '" ++ query ++ "' on Confluence...")
          false false ::
        ids.map (fun page_id =>
          citationEvent (searchRecordOf md api valves.base_url page_id).title
            (searchRecordOf md api valves.base_url page_id).link
            (searchRecordOf md api valves.base_url page_id).body) ++
        [statusEvent
          ("Search for " ++ strLower ty ++ " '" ++ query ++ "' on Confluence complete. ("
            ++ toString ids.length ++ " results found)") true false] := by
  have hrun := search_confluence_ok md dumps valves user api query ty ids hv hs hp
  refine ⟨hrun, ?_, ?_⟩
  · rw [hrun]
    dsimp only
    have hper := perPageSteps_httpCalls md api valves.base_url ids
    simp only [httpCalls, List.filterMap_append, List.filterMap_cons] at hper ⊢
    rw [hper]
    simp
  · rw [hrun]
    dsimp only
    have hper := perPageSteps_emitted md api valves.base_url ids
    simp only [emittedEvents, List.filterMap_append, List.filterMap_cons] at hper ⊢
    rw [hper]
    simp

/-- Witness for C8: the end-to-end scenario with a search yielding two page
ids against a concrete oracle. -/
theorem c8_search_pipeline_witness :
    (credCheckFails valvesS0.username valvesS0.api_key none = false ∧
      searchIds (apiTwo (searchUrl valvesS0.base_url)
        (searchParams (strLower "title") "budget report" valvesS0.result_limit)) =
        some ["1", "2"] ∧
      ∀ page_id ∈ (["1", "2"] : List String),
        (pageDoc (apiTwo (pageUrl valvesS0.base_url page_id) pageParams)).isSome
          = true) ∧
    httpCalls (search_confluence mdId dumpsList valvesS0 none apiTwo
        "budget report" "title").1 =
      (searchUrl valvesS0.base_url,
        searchParams (strLower "title") "budget report" valvesS0.result_limit)
        :: (["1", "2"] : List String).map
          (fun page_id => (pageUrl valvesS0.base_url page_id, pageParams)) ∧
    emittedEvents (search_confluence mdId dumpsList valvesS0 none apiTwo
        "budget report" "title").1 =
      statusEvent
          ("Searching for " ++ strLower "title" ++ " '" ++ "budget report"
            ++ "' on Confluence...") false false ::
        (["1", "2"] : List String).map (fun page_id =>
          citationEvent (searchRecordOf mdId apiTwo valvesS0.base_url page_id).title
            (searchRecordOf mdId apiTwo valvesS0.base_url page_id).link
            (searchRecordOf mdId apiTwo valvesS0.base_url page_id).body) ++
        [statusEvent
          ("Search for " ++ strLower "title" ++ " '" ++ "budget report"
            ++ "' on Confluence complete. ("
            ++ toString (["1", "2"] : List String).length ++ " results found)")
          true false] := by
  have h := c8_search_pipeline mdId dumpsList valvesS0 none apiTwo "budget report"
    "title" ["1", "2"] (by decide) (by decide) (by decide)
  exact ⟨⟨by decide, by decide, by decide⟩, h.2.1, h.2.2⟩

end Conf
